import Mathlib

/-!
A shallow embedding of the `File` core of the moov-io imagecashletter
package (`file.go`), together with proofs of the spec's claims about
`File.Create`, `File.Validate`/`File.CashLetterIDUnique` and
`FileFromJSON`.

Go slices become `List`, Go `int` becomes `Nat` for counters and `Int`
for monetary amounts, and Go's `(value, error)` returns become explicit
pairs/`Except`.  The leaf record types (`FileHeader`, `CashLetter`,
`Bundle`, ...) and their field-level `Validate` methods live outside the
given source file; the spec treats them as opaque collaborators exposing
`Validate() -> Result<(), Error>`, so each such node carries an abstract
`validateErr : Option Err` field holding the result its external
validator would return.
-/

/-- Record type codes, from the constant block of `file.go`. -/
def fileHeaderPos : String := "01"

def cashLetterHeaderPos : String := "10"

def bundleHeaderPos : String := "20"

def checkDetailPos : String := "25"

def checkDetailAddendumAPos : String := "26"

def checkDetailAddendumBPos : String := "27"

def checkDetailAddendumCPos : String := "28"

def returnDetailPos : String := "31"

def returnAddendumAPos : String := "32"

def returnAddendumBPos : String := "33"

def returnAddendumCPos : String := "34"

def returnAddendumDPos : String := "35"

def imageViewDetailPos : String := "50"

def imageViewDataPos : String := "52"

def imageViewAnalysisPos : String := "54"

def creditItemPos : String := "62"

def cashLetterControlPos : String := "90"

def fileControlPos : String := "99"

/-- `msgFileCashLetterID = "%s is not unique"` from `file.go`, applied to its
one format argument. -/
def msgFileCashLetterID (s : String) : String := s ++ " is not unique"

/-- `FileError` from `file.go`: a structured error carrying field name,
offending value and message. -/
structure FileError where
  FieldName : String
  Value : String
  Msg : String
deriving DecidableEq

/-- `(e *FileError) Error()` from `file.go`: `"<fieldName> <message>"`. -/
def FileError.Error (e : FileError) : String := e.FieldName ++ " " ++ e.Msg

/-- The error values observable in `file.go`: the distinguished `ErrNilFile`,
structured `FileError`s, and plain message errors (`errors.New` /
`fmt.Errorf`). External child validators may return any of these. -/
inductive Err where
  | nilFile
  | field (fe : FileError)
  | str (s : String)
deriving DecidableEq

/-- Modelled from the spec: an addendum or image-view record attached to a
detail record. Its fields are external to the core; only its fixed
two-character record-type code is observable here. -/
structure ICLRecord where
  recordType : String
deriving DecidableEq

/-- Modelled from the spec: a CheckDetail carries `itemAmount` (minor
currency units), addenda sequences A/B/C and image-view
detail/data/analysis records. Field names follow the Go accessors used in
`File.Create`. -/
structure CheckDetail where
  recordType : String
  ItemAmount : Int
  CheckDetailAddendumA : List ICLRecord
  CheckDetailAddendumB : List ICLRecord
  CheckDetailAddendumC : List ICLRecord
  ImageViewDetail : List ICLRecord
  ImageViewData : List ICLRecord
  ImageViewAnalysis : List ICLRecord
deriving DecidableEq

/-- Modelled from the spec: a ReturnDetail carries `itemAmount`, addenda
sequences A/B/C/D and image-view detail/data/analysis records. -/
structure ReturnDetail where
  recordType : String
  ItemAmount : Int
  ReturnDetailAddendumA : List ICLRecord
  ReturnDetailAddendumB : List ICLRecord
  ReturnDetailAddendumC : List ICLRecord
  ReturnDetailAddendumD : List ICLRecord
  ImageViewDetail : List ICLRecord
  ImageViewData : List ICLRecord
  ImageViewAnalysis : List ICLRecord
deriving DecidableEq

/-- Modelled from the spec: a Bundle owns ordered sequences of check-detail
and return-detail records. Its own header/control fields are external;
`validateErr` abstracts the result of its external `Validate()`. -/
structure Bundle where
  recordType : String
  Checks : List CheckDetail
  Returns : List ReturnDetail
  validateErr : Option Err
deriving DecidableEq

/-- Modelled from the spec: a credit item, a non-check monetary item at the
cash-letter level; only its record-type code is observable in the core. -/
structure CreditItem where
  recordType : String
deriving DecidableEq

/-- Modelled from the spec: the CashLetterHeader carries the
`cashLetterID` string read by `File.CashLetterIDUnique`. -/
structure CashLetterHeader where
  recordType : String
  CashLetterID : String
deriving DecidableEq

/-- Modelled from the spec: a CashLetter owns a header, ordered Bundles and
ordered credit items; `validateErr` abstracts its external `Validate()`. -/
structure CashLetter where
  CashLetterHeader : CashLetterHeader
  Bundles : List Bundle
  CreditItems : List CreditItem
  validateErr : Option Err
deriving DecidableEq

/-- Modelled from the spec: `GetCreditItems` returns the CashLetter's
credit-item sequence. -/
def CashLetter.GetCreditItems (cl : CashLetter) : List CreditItem :=
  cl.CreditItems

/-- Modelled from the spec: the FileHeader is an external leaf record;
`validateErr` abstracts the result of its external `Validate()` called at
the top of `File.Create`. -/
structure FileHeader where
  recordType : String
  validateErr : Option Err
deriving DecidableEq

/-- Modelled from the spec: `NewFileHeader` returns the default FileHeader,
already stamped with its fixed record-type code (stamping an
already-correct value is a no-op per the record-type tagging contract). -/
def NewFileHeader : FileHeader :=
  { recordType := fileHeaderPos, validateErr := none }

/-- `FileControl` as used by `File.Create`: the derived summary fields plus
the two contact fields, stamped with its record-type code. The fields
outside `file.go` are modelled from the spec. -/
structure FileControl where
  recordType : String
  CashLetterCount : Nat
  TotalRecordCount : Nat
  TotalItemCount : Nat
  FileTotalAmount : Int
  ImmediateOriginContactName : String
  ImmediateOriginContactPhoneNumber : String
  CreditTotalIndicator : Nat
deriving DecidableEq

/-- Modelled from the spec: `NewFileControl` returns the default (zero)
FileControl, stamped with its fixed record-type code. -/
def NewFileControl : FileControl :=
  { recordType := fileControlPos
    CashLetterCount := 0
    TotalRecordCount := 0
    TotalItemCount := 0
    FileTotalAmount := 0
    ImmediateOriginContactName := ""
    ImmediateOriginContactPhoneNumber := ""
    CreditTotalIndicator := 0 }

/-- `File` from `file.go`: id, header, cash letters, legacy flat bundles,
control. -/
structure File where
  ID : String
  Header : FileHeader
  CashLetters : List CashLetter
  Bundles : List Bundle
  Control : FileControl
deriving DecidableEq

/-- `NewFile` from `file.go`: a file template with default header and
control. -/
def NewFile : File :=
  { ID := ""
    Header := NewFileHeader
    CashLetters := []
    Bundles := []
    Control := NewFileControl }

/-- `SetHeader` from `file.go`. -/
def File.SetHeader (f : File) (h : FileHeader) : File :=
  { f with Header := h }

/-- `AddCashLetter` from `file.go`: appends and returns the updated
sequence. -/
def File.AddCashLetter (f : File) (cashLetter : CashLetter) : List CashLetter :=
  f.CashLetters ++ [cashLetter]

/-- Modelled from the spec: record-type tagging of an external
CheckDetail and its attached addenda / image views with their fixed codes. -/
def CheckDetail.setRecordType (cd : CheckDetail) : CheckDetail :=
  { cd with
    recordType := checkDetailPos
    CheckDetailAddendumA := cd.CheckDetailAddendumA.map fun a => { a with recordType := checkDetailAddendumAPos }
    CheckDetailAddendumB := cd.CheckDetailAddendumB.map fun a => { a with recordType := checkDetailAddendumBPos }
    CheckDetailAddendumC := cd.CheckDetailAddendumC.map fun a => { a with recordType := checkDetailAddendumCPos }
    ImageViewDetail := cd.ImageViewDetail.map fun a => { a with recordType := imageViewDetailPos }
    ImageViewData := cd.ImageViewData.map fun a => { a with recordType := imageViewDataPos }
    ImageViewAnalysis := cd.ImageViewAnalysis.map fun a => { a with recordType := imageViewAnalysisPos } }

/-- Modelled from the spec: record-type tagging of an external
ReturnDetail and its attached addenda / image views with their fixed codes. -/
def ReturnDetail.setRecordType (rd : ReturnDetail) : ReturnDetail :=
  { rd with
    recordType := returnDetailPos
    ReturnDetailAddendumA := rd.ReturnDetailAddendumA.map fun a => { a with recordType := returnAddendumAPos }
    ReturnDetailAddendumB := rd.ReturnDetailAddendumB.map fun a => { a with recordType := returnAddendumBPos }
    ReturnDetailAddendumC := rd.ReturnDetailAddendumC.map fun a => { a with recordType := returnAddendumCPos }
    ReturnDetailAddendumD := rd.ReturnDetailAddendumD.map fun a => { a with recordType := returnAddendumDPos }
    ImageViewDetail := rd.ImageViewDetail.map fun a => { a with recordType := imageViewDetailPos }
    ImageViewData := rd.ImageViewData.map fun a => { a with recordType := imageViewDataPos }
    ImageViewAnalysis := rd.ImageViewAnalysis.map fun a => { a with recordType := imageViewAnalysisPos } }

/-- Modelled from the spec: record-type tagging of an external Bundle,
transitively stamping its checks and returns. -/
def Bundle.setRecordType (b : Bundle) : Bundle :=
  { b with
    recordType := bundleHeaderPos
    Checks := b.Checks.map CheckDetail.setRecordType
    Returns := b.Returns.map ReturnDetail.setRecordType }

/-- Modelled from the spec: record-type tagging of an external CashLetter,
transitively stamping its bundles and credit items. -/
def CashLetter.setRecordType (cl : CashLetter) : CashLetter :=
  { cl with
    CashLetterHeader := { cl.CashLetterHeader with recordType := cashLetterHeaderPos }
    Bundles := cl.Bundles.map Bundle.setRecordType
    CreditItems := cl.CreditItems.map fun ci => { ci with recordType := creditItemPos } }

/-- Modelled from the spec: record-type tagging of the external FileHeader. -/
def FileHeader.setRecordType (h : FileHeader) : FileHeader :=
  { h with recordType := fileHeaderPos }

/-- Modelled from the spec: record-type tagging of the external FileControl. -/
def FileControl.setRecordType (c : FileControl) : FileControl :=
  { c with recordType := fileControlPos }

/-- `(f *File) setRecordTypes()` from `file.go`: stamps the header, every
CashLetter, every legacy Bundle and the control. (The Go receiver-nil
no-op case does not arise for a Lean value.) -/
def File.setRecordTypes (f : File) : File :=
  { f with
    Header := f.Header.setRecordType
    CashLetters := f.CashLetters.map CashLetter.setRecordType
    Bundles := f.Bundles.map Bundle.setRecordType
    Control := f.Control.setRecordType }

/-- The local accumulator variables of `File.Create` (`file.go` lines
187-192), bundled as a state record threaded through the loops. -/
structure CreateAcc where
  fileTotalItemCount : Nat
  fileTotalAmount : Int
  cashLetterRecordCount : Nat
  bundleRecordCount : Nat
  creditIndicator : Nat
deriving DecidableEq

/-- The `for _, cd := range b.Checks` loop of `File.Create`. -/
def createChecks (acc : CreateAcc) : List CheckDetail → CreateAcc
  | [] => acc
  | cd :: rest =>
      createChecks
        { acc with
          fileTotalItemCount := acc.fileTotalItemCount + 1
            + (cd.CheckDetailAddendumA.length + cd.CheckDetailAddendumB.length
              + cd.CheckDetailAddendumC.length)
            + (cd.ImageViewDetail.length + cd.ImageViewData.length
              + cd.ImageViewAnalysis.length)
          fileTotalAmount := acc.fileTotalAmount + cd.ItemAmount }
        rest

/-- The `for _, rd := range b.Returns` loop of `File.Create`. -/
def createReturns (acc : CreateAcc) : List ReturnDetail → CreateAcc
  | [] => acc
  | rd :: rest =>
      createReturns
        { acc with
          fileTotalItemCount := acc.fileTotalItemCount + 1
            + (rd.ReturnDetailAddendumA.length + rd.ReturnDetailAddendumB.length
              + rd.ReturnDetailAddendumC.length + rd.ReturnDetailAddendumD.length)
            + (rd.ImageViewDetail.length + rd.ImageViewData.length
              + rd.ImageViewAnalysis.length)
          fileTotalAmount := acc.fileTotalAmount + rd.ItemAmount }
        rest

/-- The `for _, b := range cl.Bundles` loop of `File.Create`: validate the
bundle (abort on its error), add 2 to the bundle record count, then fold
the check and return loops. -/
def createBundles (acc : CreateAcc) : List Bundle → Except Err CreateAcc
  | [] => .ok acc
  | b :: rest =>
      match b.validateErr with
      | some e => .error e
      | none =>
          let acc1 := { acc with bundleRecordCount := acc.bundleRecordCount + 2 }
          let acc2 := createChecks acc1 b.Checks
          let acc3 := createReturns acc2 b.Returns
          createBundles acc3 rest

/-- The `for _, cl := range f.CashLetters` loop of `File.Create`: validate
the cash letter (abort on its error), add 2 to the cash-letter record
count, count credit items (twice when present, setting the credit
indicator), then fold the bundle loop. -/
def createCashLetters (acc : CreateAcc) : List CashLetter → Except Err CreateAcc
  | [] => .ok acc
  | cl :: rest =>
      match cl.validateErr with
      | some e => .error e
      | none =>
          let acc1 := { acc with cashLetterRecordCount := acc.cashLetterRecordCount + 2 }
          let acc2 := { acc1 with
            fileTotalItemCount := acc1.fileTotalItemCount + cl.GetCreditItems.length }
          let acc3 :=
            if cl.GetCreditItems.length > 0 then
              { acc2 with
                fileTotalItemCount := acc2.fileTotalItemCount + cl.GetCreditItems.length
                creditIndicator := 1 }
            else acc2
          match createBundles acc3 cl.Bundles with
          | .error e => .error e
          | .ok acc4 => createCashLetters acc4 rest

/-- The control-record computation of `File.Create`: header validation,
the non-empty CashLetters precondition, the accumulation loops, and the
assembly of the fresh `FileControl`. It reads only the header and the
CashLetters sequence. -/
def createResult (h : FileHeader) (cls : List CashLetter) : Except Err FileControl :=
  match h.validateErr with
  | some e => .error e
  | none =>
      if cls.length = 0 then
        .error (.field
          { FieldName := "CashLetters"
            Value := toString cls.length
            Msg := "must have []*CashLetters to be built" })
      else
        match createCashLetters
            { fileTotalItemCount := 0
              fileTotalAmount := 0
              cashLetterRecordCount := 0
              bundleRecordCount := 0
              creditIndicator := 0 } cls with
        | .error e => .error e
        | .ok acc =>
            .ok { NewFileControl with
              CashLetterCount := cls.length
              TotalRecordCount := 2 + acc.cashLetterRecordCount
                + acc.bundleRecordCount + acc.fileTotalItemCount
              TotalItemCount := acc.fileTotalItemCount
              FileTotalAmount := acc.fileTotalAmount
              ImmediateOriginContactName := ""
              ImmediateOriginContactPhoneNumber := ""
              CreditTotalIndicator := acc.creditIndicator }

/-- `(f *File) Create()` from `file.go`, in state-passing form: the pair is
(returned error, the file after the call). On every error path the Go
code returns before the single assignment `f.Control = fc`, so the file
component is the unchanged input there; on success the control record is
replaced by the computed one. (The Go receiver-nil branch returning
`ErrNilFile` does not arise for a Lean value.) -/
def File.Create (f : File) : Option Err × File :=
  match createResult f.Header f.CashLetters with
  | .error e => (some e, f)
  | .ok fc => (none, { f with Control := fc })

/-- The loop of `CashLetterIDUnique`, carrying the single rolling
`cashLetterID` comparison variable. -/
def cashLetterIDUniqueLoop (cashLetterID : String) : List CashLetter → Option Err
  | [] => none
  | cl :: rest =>
      if cashLetterID = cl.CashLetterHeader.CashLetterID then
        some (.field
          { FieldName := "CashLetterID"
            Value := cl.CashLetterHeader.CashLetterID
            Msg := msgFileCashLetterID cashLetterID })
      else cashLetterIDUniqueLoop cl.CashLetterHeader.CashLetterID rest

/-- `(f *File) CashLetterIDUnique()` from `file.go`: an empty CashLetters
sequence yields `ErrNilFile`; otherwise the rolling comparison starts from
the empty string. -/
def File.CashLetterIDUnique (f : File) : Option Err :=
  if f.CashLetters.length = 0 then some .nilFile
  else cashLetterIDUniqueLoop "" f.CashLetters

/-- `(f *File) Validate()` from `file.go`: delegates to
`CashLetterIDUnique`. -/
def File.Validate (f : File) : Option Err :=
  f.CashLetterIDUnique

/-- Modelled from the spec: the recognized top-level fields of a decodable
JSON payload (`id`, `fileHeader`, `cashLetters`, legacy `bundle`,
`fileControl`), each optional. A present sub-object replaces the decode
seed wholesale; sub-field-level merging inside `fileHeader`/`fileControl`
is below the granularity the claims need. -/
structure Payload where
  id : Option String
  fileHeader : Option FileHeader
  cashLetters : Option (List CashLetter)
  bundles : Option (List Bundle)
  fileControl : Option FileControl
deriving DecidableEq

/-- Modelled from the spec: the byte input of `FileFromJSON`, abstracted to
the cases the three-pass decoder distinguishes: zero-length input, a
payload failing one of the three decode passes (with the underlying
decoder message), or a fully decodable payload. -/
inductive JSONInput where
  | empty
  | malformedRoot (detail : String)
  | malformedHeader (detail : String)
  | malformedControl (detail : String)
  | payload (p : Payload)
deriving DecidableEq

/-- `FileFromJSON` from `file.go`, returning the Go pair
`(*File, error)` as `(Option File, Option Err)`: empty input is the
distinguished `"no JSON data provided"` error; each decode pass failure is
wrapped with its pass name; otherwise root fields, the seeded header and
the seeded control are merged into `NewFile()`, record types are stamped,
and `Create` then `Validate` run, each returning the built file together
with its error on failure. -/
def FileFromJSON : JSONInput → Option File × Option Err
  | .empty => (none, some (.str "no JSON data provided"))
  | .malformedRoot detail =>
      (none, some (.str ("problem reading file: " ++ detail)))
  | .malformedHeader detail =>
      (none, some (.str ("problem reading FileHeader: " ++ detail)))
  | .malformedControl detail =>
      (none, some (.str ("problem reading FileControl: " ++ detail)))
  | .payload p =>
      let file0 := NewFile
      let file1 := { file0 with
        ID := p.id.getD ""
        CashLetters := p.cashLetters.getD []
        Bundles := p.bundles.getD [] }
      let file2 := { file1 with Header := p.fileHeader.getD file1.Header }
      let file3 := { file2 with Control := p.fileControl.getD NewFileControl }
      let file4 := file3.setRecordTypes
      match file4.Create with
      | (some e, f) => (some f, some e)
      | (none, f) =>
          match f.Validate with
          | some e => (some f, some e)
          | none => (some f, none)

/-! ### Derived counting functions

Closed-form per-node counts and amounts, used to characterize the
accumulation loops. -/

/-- Records a CheckDetail contributes to `fileTotalItemCount`: itself plus
its addenda and image views. -/
def CheckDetail.itemRecords (cd : CheckDetail) : Nat :=
  1 + (cd.CheckDetailAddendumA.length + cd.CheckDetailAddendumB.length
      + cd.CheckDetailAddendumC.length)
    + (cd.ImageViewDetail.length + cd.ImageViewData.length
      + cd.ImageViewAnalysis.length)

/-- Records a ReturnDetail contributes to `fileTotalItemCount`. -/
def ReturnDetail.itemRecords (rd : ReturnDetail) : Nat :=
  1 + (rd.ReturnDetailAddendumA.length + rd.ReturnDetailAddendumB.length
      + rd.ReturnDetailAddendumC.length + rd.ReturnDetailAddendumD.length)
    + (rd.ImageViewDetail.length + rd.ImageViewData.length
      + rd.ImageViewAnalysis.length)

/-- Item records contributed by a Bundle. -/
def Bundle.itemRecords (b : Bundle) : Nat :=
  (b.Checks.map CheckDetail.itemRecords).sum
    + (b.Returns.map ReturnDetail.itemRecords).sum

/-- Sum of the item amounts of a Bundle's checks and returns. -/
def Bundle.amount (b : Bundle) : Int :=
  (b.Checks.map CheckDetail.ItemAmount).sum
    + (b.Returns.map ReturnDetail.ItemAmount).sum

/-- Credit-item records a CashLetter contributes to `fileTotalItemCount`:
counted once, and once more when any are present. -/
def CashLetter.creditRecords (cl : CashLetter) : Nat :=
  cl.CreditItems.length
    + (if cl.CreditItems.length > 0 then cl.CreditItems.length else 0)

/-- Item records contributed by a CashLetter. -/
def CashLetter.itemRecords (cl : CashLetter) : Nat :=
  cl.creditRecords + (cl.Bundles.map Bundle.itemRecords).sum

/-- Sum of the item amounts inside a CashLetter. -/
def CashLetter.amount (cl : CashLetter) : Int :=
  (cl.Bundles.map Bundle.amount).sum

/-- The sum of every CheckDetail's and every ReturnDetail's `ItemAmount`
across a File's whole tree. -/
def File.sumItemAmounts (f : File) : Int :=
  (f.CashLetters.map CashLetter.amount).sum

/-- A CashLetter and all of its Bundles pass their external validators. -/
def CashLetter.allValid (cl : CashLetter) : Prop :=
  cl.validateErr = none ∧ ∀ b ∈ cl.Bundles, b.validateErr = none

/-- The control record `File.Create` computes for a fully valid tree, in
closed form. -/
def derivedControl (cls : List CashLetter) : FileControl :=
  { NewFileControl with
    CashLetterCount := cls.length
    TotalRecordCount := 2 + 2 * cls.length
      + 2 * (cls.map fun cl => cl.Bundles.length).sum
      + (cls.map CashLetter.itemRecords).sum
    TotalItemCount := (cls.map CashLetter.itemRecords).sum
    FileTotalAmount := (cls.map CashLetter.amount).sum
    CreditTotalIndicator :=
      if cls.any fun cl => 0 < cl.CreditItems.length then 1 else 0 }

/-- The first child-validation failure `Create` meets while walking the
tree: every CashLetter before `cl` is fully valid, and either `cl` itself
fails its external validator with `e`, or `cl` passes and its first
failing Bundle fails with `e` after valid predecessors. -/
def File.firstChildFailure (f : File) (e : Err) : Prop :=
  ∃ pre cl post, f.CashLetters = pre ++ cl :: post ∧
    (∀ c ∈ pre, c.allValid) ∧
    (cl.validateErr = some e ∨
      (cl.validateErr = none ∧ ∃ bpre b bpost, cl.Bundles = bpre ++ b :: bpost ∧
        (∀ x ∈ bpre, x.validateErr = none) ∧ b.validateErr = some e))

/-! ### Concrete sample values, used by witnesses and counterexamples -/

/-- A FileHeader whose external validator passes. -/
def sampleHeader : FileHeader :=
  { recordType := fileHeaderPos, validateErr := none }

/-- A CheckDetail with amount 1000 and no addenda or image views. -/
def sampleCheck : CheckDetail :=
  { recordType := checkDetailPos
    ItemAmount := 1000
    CheckDetailAddendumA := []
    CheckDetailAddendumB := []
    CheckDetailAddendumC := []
    ImageViewDetail := []
    ImageViewData := []
    ImageViewAnalysis := [] }

/-- A Bundle holding one check, passing its external validator. -/
def sampleBundle : Bundle :=
  { recordType := bundleHeaderPos
    Checks := [sampleCheck]
    Returns := []
    validateErr := none }

/-- A valid CashLetter with one bundle of one check. -/
def sampleCashLetter (ident : String) : CashLetter :=
  { CashLetterHeader := { recordType := cashLetterHeaderPos, CashLetterID := ident }
    Bundles := [sampleBundle]
    CreditItems := []
    validateErr := none }

/-- A valid CashLetter with no bundles, used where only IDs matter. -/
def plainCashLetter (ident : String) : CashLetter :=
  { CashLetterHeader := { recordType := cashLetterHeaderPos, CashLetterID := ident }
    Bundles := []
    CreditItems := []
    validateErr := none }

/-- A CashLetter whose external validator fails. -/
def badCashLetter : CashLetter :=
  { CashLetterHeader := { recordType := cashLetterHeaderPos, CashLetterID := "BAD" }
    Bundles := []
    CreditItems := []
    validateErr := some (.str "invalid cash letter") }

/-- A one-cash-letter file on which `Create` succeeds. -/
def sampleFile : File :=
  { ID := ""
    Header := sampleHeader
    CashLetters := [sampleCashLetter "CL1"]
    Bundles := []
    Control := NewFileControl }

/-- A file with a valid header and no cash letters. -/
def emptyCLFile : File :=
  { ID := ""
    Header := sampleHeader
    CashLetters := []
    Bundles := []
    Control := NewFileControl }

/-- A file whose single cash letter fails its external validator. -/
def badCLFile : File :=
  { ID := ""
    Header := sampleHeader
    CashLetters := [badCashLetter]
    Bundles := []
    Control := NewFileControl }

/-- CashLetterIDs [A, A, B]: adjacent duplicate. -/
def dupIDFile : File :=
  { ID := ""
    Header := sampleHeader
    CashLetters := [plainCashLetter "A", plainCashLetter "A", plainCashLetter "B"]
    Bundles := []
    Control := NewFileControl }

/-- CashLetterIDs [A, B, A]: a non-adjacent duplicate. -/
def sepIDFile : File :=
  { ID := ""
    Header := sampleHeader
    CashLetters := [plainCashLetter "A", plainCashLetter "B", plainCashLetter "A"]
    Bundles := []
    Control := NewFileControl }

/-- A file whose first cash letter has the empty CashLetterID. -/
def emptyIDFile : File :=
  { ID := ""
    Header := sampleHeader
    CashLetters := [plainCashLetter "", plainCashLetter "X"]
    Bundles := []
    Control := NewFileControl }

/-- The file `FileFromJSON` assembles from a decodable payload just before
`Create` runs: root fields over `NewFile`, the seeded header, the seeded
control, then the record-type tagging pass. -/
def decodedFile (p : Payload) : File :=
  ({ ID := p.id.getD ""
     Header := p.fileHeader.getD NewFileHeader
     CashLetters := p.cashLetters.getD []
     Bundles := p.bundles.getD []
     Control := p.fileControl.getD NewFileControl } : File).setRecordTypes

/-- A payload carrying an explicit header and control. -/
def samplePayload : Payload :=
  { id := none
    fileHeader := some sampleHeader
    cashLetters := some [sampleCashLetter "CL1"]
    bundles := none
    fileControl := some NewFileControl }

/-! ### Characterization of the accumulation loops -/

theorem createChecks_eq (l : List CheckDetail) (acc : CreateAcc) :
    createChecks acc l =
      { acc with
        fileTotalItemCount :=
          acc.fileTotalItemCount + (l.map CheckDetail.itemRecords).sum
        fileTotalAmount :=
          acc.fileTotalAmount + (l.map CheckDetail.ItemAmount).sum } := by
  induction l generalizing acc with
  | nil => simp [createChecks]
  | cons cd rest ih =>
      obtain ⟨i, a, c, b, ci⟩ := acc
      simp only [createChecks, ih, List.map_cons, List.sum_cons,
        CheckDetail.itemRecords, CreateAcc.mk.injEq]
      and_intros <;> first | trivial | omega

theorem createReturns_eq (l : List ReturnDetail) (acc : CreateAcc) :
    createReturns acc l =
      { acc with
        fileTotalItemCount :=
          acc.fileTotalItemCount + (l.map ReturnDetail.itemRecords).sum
        fileTotalAmount :=
          acc.fileTotalAmount + (l.map ReturnDetail.ItemAmount).sum } := by
  induction l generalizing acc with
  | nil => simp [createReturns]
  | cons rd rest ih =>
      obtain ⟨i, a, c, b, ci⟩ := acc
      simp only [createReturns, ih, List.map_cons, List.sum_cons,
        ReturnDetail.itemRecords, CreateAcc.mk.injEq]
      and_intros <;> first | trivial | omega

theorem createBundles_eq (l : List Bundle) (acc : CreateAcc)
    (h : ∀ b ∈ l, b.validateErr = none) :
    createBundles acc l =
      .ok { acc with
        fileTotalItemCount :=
          acc.fileTotalItemCount + (l.map Bundle.itemRecords).sum
        fileTotalAmount :=
          acc.fileTotalAmount + (l.map Bundle.amount).sum
        bundleRecordCount := acc.bundleRecordCount + 2 * l.length } := by
  induction l generalizing acc with
  | nil => simp [createBundles]
  | cons b rest ih =>
      have hb : b.validateErr = none := h b (by simp)
      have hrest : ∀ x ∈ rest, x.validateErr = none := fun x hx => h x (by simp [hx])
      obtain ⟨i, a, c, brc, ci⟩ := acc
      simp only [createBundles, hb, createChecks_eq, createReturns_eq,
        ih _ hrest, List.map_cons, List.sum_cons, Bundle.itemRecords,
        Bundle.amount, List.length_cons, Except.ok.injEq, CreateAcc.mk.injEq]
      and_intros <;> first | trivial | omega

theorem createCashLetters_eq (l : List CashLetter) (acc : CreateAcc)
    (h : ∀ cl ∈ l, cl.allValid) :
    createCashLetters acc l =
      .ok { acc with
        fileTotalItemCount :=
          acc.fileTotalItemCount + (l.map CashLetter.itemRecords).sum
        fileTotalAmount :=
          acc.fileTotalAmount + (l.map CashLetter.amount).sum
        cashLetterRecordCount := acc.cashLetterRecordCount + 2 * l.length
        bundleRecordCount :=
          acc.bundleRecordCount + 2 * (l.map fun cl => cl.Bundles.length).sum
        creditIndicator :=
          if l.any fun cl => 0 < cl.CreditItems.length then 1
          else acc.creditIndicator } := by
  induction l generalizing acc with
  | nil => simp [createCashLetters]
  | cons cl rest ih =>
      have hcl : cl.validateErr = none := (h cl (by simp)).1
      have hbs : ∀ b ∈ cl.Bundles, b.validateErr = none := (h cl (by simp)).2
      have hrest : ∀ x ∈ rest, x.allValid := fun x hx => h x (by simp [hx])
      obtain ⟨i, a, c, brc, ci⟩ := acc
      by_cases hcred : 0 < cl.CreditItems.length
      · simp only [createCashLetters, hcl, CashLetter.GetCreditItems,
          createBundles_eq _ _ hbs, ih _ hrest]
        simp [CashLetter.itemRecords, CashLetter.creditRecords,
          CashLetter.amount, hcred, gt_iff_lt, CreateAcc.mk.injEq]
        and_intros <;> first | trivial | omega
      · simp only [createCashLetters, hcl, CashLetter.GetCreditItems,
          createBundles_eq _ _ hbs, ih _ hrest]
        simp [CashLetter.itemRecords, CashLetter.creditRecords,
          CashLetter.amount, hcred, gt_iff_lt, CreateAcc.mk.injEq]
        and_intros <;> first | trivial | omega

/-! ### Inversion: a successful loop run means every child validated -/

theorem createBundles_ok_valid : ∀ (l : List Bundle) (acc acc2 : CreateAcc),
    createBundles acc l = .ok acc2 → ∀ b ∈ l, b.validateErr = none := by
  intro l
  induction l with
  | nil => intro acc acc2 _ b hb; simp at hb
  | cons x rest ih =>
      intro acc acc2 hok b hb
      simp only [createBundles] at hok
      cases hx : x.validateErr with
      | some e => simp [hx] at hok
      | none =>
          simp only [hx] at hok
          rcases List.mem_cons.mp hb with rfl | hb2
          · exact hx
          · exact ih _ _ hok b hb2

theorem createCashLetters_ok_valid : ∀ (l : List CashLetter) (acc acc2 : CreateAcc),
    createCashLetters acc l = .ok acc2 → ∀ cl ∈ l, cl.allValid := by
  intro l
  induction l with
  | nil => intro acc acc2 _ cl hcl; simp at hcl
  | cons x rest ih =>
      intro acc acc2 hok cl hcl
      simp only [createCashLetters] at hok
      cases hx : x.validateErr with
      | some e => simp [hx] at hok
      | none =>
          simp only [hx] at hok
          split at hok
          · exact absurd hok (by simp)
          · rename_i a heq
            rcases List.mem_cons.mp hcl with rfl | h2
            · exact ⟨hx, createBundles_ok_valid _ _ _ heq⟩
            · exact ih _ _ hok cl h2

/-! ### Error propagation through the loops -/

theorem createBundles_error_first (b : Bundle) (bpost : List Bundle) (e : Err)
    (hb : b.validateErr = some e) :
    ∀ (bpre : List Bundle) (acc : CreateAcc),
      (∀ x ∈ bpre, x.validateErr = none) →
      createBundles acc (bpre ++ b :: bpost) = .error e := by
  intro bpre
  induction bpre with
  | nil => intro acc _; simp [createBundles, hb]
  | cons x rest ih =>
      intro acc hpre
      have hx : x.validateErr = none := hpre x (by simp)
      simp only [List.cons_append, createBundles, hx]
      exact ih _ fun y hy => hpre y (by simp [hy])

theorem createCashLetters_error_first (cl : CashLetter) (post : List CashLetter)
    (e : Err)
    (hfail : cl.validateErr = some e ∨
      (cl.validateErr = none ∧ ∃ bpre b bpost, cl.Bundles = bpre ++ b :: bpost ∧
        (∀ x ∈ bpre, x.validateErr = none) ∧ b.validateErr = some e)) :
    ∀ (pre : List CashLetter) (acc : CreateAcc),
      (∀ c ∈ pre, c.allValid) →
      createCashLetters acc (pre ++ cl :: post) = .error e := by
  intro pre
  induction pre with
  | nil =>
      intro acc _
      rcases hfail with hcl | ⟨hcl, bpre, b, bpost, hB, hbpre, hb⟩
      · simp [createCashLetters, hcl]
      · simp only [List.nil_append, createCashLetters, hcl]
        rw [hB, createBundles_error_first b bpost e hb bpre _ hbpre]
  | cons c rest ih =>
      intro acc hpre
      have hc : c.allValid := hpre c (by simp)
      simp only [List.cons_append, createCashLetters, hc.1,
        createBundles_eq _ _ hc.2]
      exact ih _ fun y hy => hpre y (by simp [hy])

/-! ### Characterization of a successful `createResult` -/

theorem createResult_of_valid (h : FileHeader) (cls : List CashLetter)
    (hh : h.validateErr = none) (hne : cls ≠ [])
    (hv : ∀ cl ∈ cls, cl.allValid) :
    createResult h cls = .ok (derivedControl cls) := by
  have hlen : ¬ cls.length = 0 := by
    cases cls with
    | nil => exact absurd rfl hne
    | cons a b => simp
  simp only [createResult, hh, if_neg hlen, createCashLetters_eq _ _ hv]
  simp only [derivedControl, Except.ok.injEq, FileControl.mk.injEq]
  and_intros <;> first | trivial | omega

theorem createResult_ok (h : FileHeader) (cls : List CashLetter) (fc : FileControl)
    (hok : createResult h cls = .ok fc) :
    h.validateErr = none ∧ cls ≠ [] ∧ (∀ cl ∈ cls, cl.allValid) ∧
      fc = derivedControl cls := by
  have hh : h.validateErr = none := by
    cases hx : h.validateErr with
    | some e => simp [createResult, hx] at hok
    | none => rfl
  simp only [createResult, hh] at hok
  by_cases hlen : cls.length = 0
  · simp [hlen] at hok
  · simp only [if_neg hlen] at hok
    split at hok
    · exact absurd hok (by simp)
    · rename_i acc heq
      have hv : ∀ cl ∈ cls, cl.allValid := createCashLetters_ok_valid _ _ _ heq
      have hne : cls ≠ [] := by
        cases cls with
        | nil => simp at hlen
        | cons a b => simp
      refine ⟨hh, hne, hv, ?_⟩
      have := createResult_of_valid h cls hh hne hv
      simp only [createResult, hh, if_neg hlen, heq] at this
      simp only [Except.ok.injEq] at this hok
      rw [← hok, this]

/-! ### Helper lemmas for the claim theorems -/

theorem sum_map_const {α : Type} (l : List α) (g : α → Nat) (v : Nat)
    (h : ∀ x ∈ l, g x = v) : (l.map g).sum = l.length * v := by
  induction l with
  | nil => simp
  | cons x rest ih =>
      simp only [List.map_cons, List.sum_cons, List.length_cons]
      rw [h x (by simp), ih fun y hy => h y (by simp [hy])]
      ring

theorem create_ok_iff (f f2 : File) :
    f.Create = (none, f2) ↔
      ∃ fc, createResult f.Header f.CashLetters = .ok fc ∧
        f2 = { f with Control := fc } := by
  constructor
  · intro hok
    simp only [File.Create] at hok
    split at hok
    · simp at hok
    · rename_i fc hr
      exact ⟨fc, hr, by simpa using (congrArg Prod.snd hok).symm⟩
  · rintro ⟨fc, hr, rfl⟩
    simp [File.Create, hr]

theorem fileFromJSON_payload (p : Payload) :
    FileFromJSON (.payload p) =
      match (decodedFile p).Create with
      | (some e, f) => (some f, some e)
      | (none, f) =>
          match f.Validate with
          | some e => (some f, some e)
          | none => (some f, none) := rfl

theorem decodedFile_parts (p : Payload) :
    (decodedFile p).ID = p.id.getD "" ∧
    (decodedFile p).Header = (p.fileHeader.getD NewFileHeader).setRecordType ∧
    (decodedFile p).CashLetters = (p.cashLetters.getD []).map CashLetter.setRecordType ∧
    (decodedFile p).Bundles = (p.bundles.getD []).map Bundle.setRecordType ∧
    (decodedFile p).Control = (p.fileControl.getD NewFileControl).setRecordType := by
  simp [decodedFile, File.setRecordTypes]

/-! ### Claim theorems -/

/-- C1: for every File with `c` CashLetters, each containing `b` Bundles,
each containing `k` CheckDetails that have no addenda and no image-view
records (and no ReturnDetails or CreditItems), a successful `Create` sets
the File control's TotalRecordCount to `2 + 2c + 2cb + cbk`. -/
theorem C1_total_record_count (f f2 : File) (c b k : Nat)
    (hc : f.CashLetters.length = c)
    (hshape : ∀ cl ∈ f.CashLetters, cl.Bundles.length = b ∧ cl.CreditItems = [] ∧
      ∀ bd ∈ cl.Bundles, bd.Checks.length = k ∧ bd.Returns = [] ∧
        ∀ cd ∈ bd.Checks, cd.CheckDetailAddendumA = [] ∧
          cd.CheckDetailAddendumB = [] ∧ cd.CheckDetailAddendumC = [] ∧
          cd.ImageViewDetail = [] ∧ cd.ImageViewData = [] ∧
          cd.ImageViewAnalysis = [])
    (hok : f.Create = (none, f2)) :
    f2.Control.TotalRecordCount = 2 + 2 * c + 2 * (c * b) + c * b * k := by
  obtain ⟨fc, hr, rfl⟩ := (create_ok_iff f f2).mp hok
  obtain ⟨-, -, -, hfc⟩ := createResult_ok _ _ _ hr
  subst hfc
  have hbl : (f.CashLetters.map fun cl => cl.Bundles.length).sum = c * b := by
    have := sum_map_const f.CashLetters (fun cl => cl.Bundles.length) b
      fun cl hcl => (hshape cl hcl).1
    rw [this, hc]
  have hitems : (f.CashLetters.map CashLetter.itemRecords).sum = c * (b * k) := by
    have hper : ∀ cl ∈ f.CashLetters, cl.itemRecords = b * k := by
      intro cl hcl
      obtain ⟨hb, hcred, hbd⟩ := hshape cl hcl
      have hcr : cl.creditRecords = 0 := by
        simp [CashLetter.creditRecords, hcred]
      have hbi : (cl.Bundles.map Bundle.itemRecords).sum = b * k := by
        have hperb : ∀ bd ∈ cl.Bundles, bd.itemRecords = k := by
          intro bd hbdm
          obtain ⟨hk, hret, hcd⟩ := hbd bd hbdm
          have hch : (bd.Checks.map CheckDetail.itemRecords).sum = k := by
            have := sum_map_const bd.Checks CheckDetail.itemRecords 1 ?_
            · rw [this, hk, Nat.mul_one]
            · intro cd hcdm
              obtain ⟨h1, h2, h3, h4, h5, h6⟩ := hcd cd hcdm
              simp [CheckDetail.itemRecords, h1, h2, h3, h4, h5, h6]
          simp [Bundle.itemRecords, hch, hret]
        have := sum_map_const cl.Bundles Bundle.itemRecords k hperb
        rw [this, hb]
      simp [CashLetter.itemRecords, hcr, hbi]
    have := sum_map_const f.CashLetters CashLetter.itemRecords (b * k) hper
    rw [this, hc]
  simp only [derivedControl, hc, hbl, hitems]
  ring

/-- C2: for every File on which `Create` succeeds, the control's
FileTotalAmount equals the sum of ItemAmount over every CheckDetail and
every ReturnDetail in every Bundle of every CashLetter of the File. -/
theorem C2_amount_summation (f f2 : File) (hok : f.Create = (none, f2)) :
    f2.Control.FileTotalAmount = f.sumItemAmounts := by
  obtain ⟨fc, hr, rfl⟩ := (create_ok_iff f f2).mp hok
  obtain ⟨-, -, -, hfc⟩ := createResult_ok _ _ _ hr
  subst hfc
  simp [derivedControl, File.sumItemAmounts]

/-- C6: `Create` is idempotent and referentially transparent: after a
successful `Create`, re-running it on the unmodified result succeeds and
leaves the identical control record, and any File with an equal tree (id,
header, cash letters, bundles) receives an equal control record. -/
theorem C6_idempotent_create (f f2 : File) (hok : f.Create = (none, f2)) :
    f2.Create = (none, f2) ∧
      ∀ g : File, g.ID = f.ID → g.Header = f.Header →
        g.CashLetters = f.CashLetters → g.Bundles = f.Bundles →
        ∃ g2, g.Create = (none, g2) ∧ g2.Control = f2.Control := by
  obtain ⟨fc, hr, rfl⟩ := (create_ok_iff f f2).mp hok
  constructor
  · simp [File.Create, hr]
  · intro g h1 h2 h3 h4
    refine ⟨{ g with Control := fc }, ?_, rfl⟩
    have hg : createResult g.Header g.CashLetters = .ok fc := by
      rw [h2, h3]; exact hr
    simp [File.Create, hg]

/-- C10: for every File on which `Create` succeeds, the only field of the
File that `Create` modifies is `Control`: the ID, Header, CashLetters and
Bundles sequences (with every nested record) are unchanged. -/
theorem C10_create_frame (f f2 : File) (hok : f.Create = (none, f2)) :
    f2.ID = f.ID ∧ f2.Header = f.Header ∧ f2.CashLetters = f.CashLetters ∧
      f2.Bundles = f.Bundles := by
  obtain ⟨fc, hr, rfl⟩ := (create_ok_iff f f2).mp hok
  exact ⟨rfl, rfl, rfl, rfl⟩

theorem C1_total_record_count_witness :
    sampleFile.CashLetters.length = 1 ∧
    sampleFile.Create = (none, (sampleFile.Create).2) ∧
    ((sampleFile.Create).2).Control.TotalRecordCount
      = 2 + 2 * 1 + 2 * (1 * 1) + 1 * 1 * 1 :=
  ⟨rfl, by decide,
    C1_total_record_count sampleFile (sampleFile.Create).2 1 1 1 rfl
      (by decide) (by decide)⟩

theorem C2_amount_summation_witness :
    sampleFile.Create = (none, (sampleFile.Create).2) ∧
    ((sampleFile.Create).2).Control.FileTotalAmount = sampleFile.sumItemAmounts :=
  ⟨by decide, C2_amount_summation sampleFile (sampleFile.Create).2 (by decide)⟩

theorem C6_idempotent_create_witness :
    sampleFile.Create = (none, (sampleFile.Create).2) ∧
    ((sampleFile.Create).2).Create = (none, (sampleFile.Create).2) :=
  ⟨by decide, (C6_idempotent_create sampleFile (sampleFile.Create).2 (by decide)).1⟩

theorem C10_create_frame_witness :
    sampleFile.Create = (none, (sampleFile.Create).2) ∧
    ((sampleFile.Create).2).ID = sampleFile.ID ∧
    ((sampleFile.Create).2).Header = sampleFile.Header ∧
    ((sampleFile.Create).2).CashLetters = sampleFile.CashLetters ∧
    ((sampleFile.Create).2).Bundles = sampleFile.Bundles :=
  ⟨by decide, C10_create_frame sampleFile (sampleFile.Create).2 (by decide)⟩

/-- C3 counterexample: on a valid-header File with zero CashLetters the
error message `Create` actually produces is
"must have []*CashLetters to be built", not the claimed
"must have CashLetters to be built". -/
theorem C3_counterexample :
    emptyCLFile.Create = (some (.field
      { FieldName := "CashLetters", Value := "0"
        Msg := "must have []*CashLetters to be built" }), emptyCLFile) ∧
    (emptyCLFile.Create).1 ≠ some (.field
      { FieldName := "CashLetters", Value := "0"
        Msg := "must have CashLetters to be built" }) :=
  ⟨by decide, by decide⟩

/-- C3 (amended): for every non-null File whose header validates and whose
CashLetters sequence is empty, `Create` fails with a FieldError whose
FieldName is "CashLetters", whose Value is the observed count "0", and
whose Msg is the code's "must have []*CashLetters to be built", and the
File (in particular its control record) is not mutated. -/
theorem C3_empty_cashletters (f : File) (hh : f.Header.validateErr = none)
    (hempty : f.CashLetters = []) :
    f.Create = (some (.field
      { FieldName := "CashLetters", Value := "0"
        Msg := "must have []*CashLetters to be built" }), f) := by
  have h0 : (toString (0 : Nat) : String) = "0" := rfl
  simp [File.Create, createResult, hh, hempty, h0]

theorem C3_empty_cashletters_witness :
    emptyCLFile.Header.validateErr = none ∧ emptyCLFile.CashLetters = [] ∧
    emptyCLFile.Create = (some (.field
      { FieldName := "CashLetters", Value := "0"
        Msg := "must have []*CashLetters to be built" }), emptyCLFile) :=
  ⟨rfl, rfl, C3_empty_cashletters emptyCLFile rfl rfl⟩

/-- C5: when a CashLetter's or a Bundle's external validator fails first
during `Create`, `Create` returns exactly that child's error value
unchanged (no wrapping), and the File — in particular its control
record — retains the value it had before the call. -/
theorem C5_child_error_propagation (f : File) (e : Err)
    (hh : f.Header.validateErr = none)
    (hfail : f.firstChildFailure e) :
    f.Create = (some e, f) := by
  obtain ⟨pre, cl, post, hC, hpre, hfl⟩ := hfail
  have hloop := createCashLetters_error_first cl post e hfl pre
    { fileTotalItemCount := 0, fileTotalAmount := 0, cashLetterRecordCount := 0,
      bundleRecordCount := 0, creditIndicator := 0 } hpre
  have hlen : ((pre ++ cl :: post : List CashLetter).length = 0) = False := by
    simp
  simp [File.Create, createResult, hh, hC, hlen, hloop]

theorem C5_child_error_propagation_witness :
    badCLFile.Header.validateErr = none ∧
    badCLFile.firstChildFailure (.str "invalid cash letter") ∧
    badCLFile.Create = (some (.str "invalid cash letter"), badCLFile) := by
  have hf : badCLFile.firstChildFailure (.str "invalid cash letter") :=
    ⟨[], badCashLetter, [], rfl, by simp, Or.inl rfl⟩
  exact ⟨rfl, hf, C5_child_error_propagation badCLFile _ rfl hf⟩

/-- C9: for every non-null File with a non-empty CashLetters sequence
whose first CashLetter's CashLetterID is the empty string, `Validate`
(via `CashLetterIDUnique`) fails with a FieldError naming CashLetterID,
because the rolling comparison variable is initialized to the empty
string. -/
theorem C9_empty_first_id (f : File) (c : CashLetter) (rest : List CashLetter)
    (hC : f.CashLetters = c :: rest)
    (hid : c.CashLetterHeader.CashLetterID = "") :
    f.Validate = some (.field
      { FieldName := "CashLetterID", Value := ""
        Msg := msgFileCashLetterID "" }) := by
  simp [File.Validate, File.CashLetterIDUnique, hC, cashLetterIDUniqueLoop, hid]

theorem C9_empty_first_id_witness :
    emptyIDFile.CashLetters = plainCashLetter "" :: [plainCashLetter "X"] ∧
    (plainCashLetter "").CashLetterHeader.CashLetterID = "" ∧
    emptyIDFile.Validate = some (.field
      { FieldName := "CashLetterID", Value := ""
        Msg := msgFileCashLetterID "" }) :=
  ⟨rfl, rfl, C9_empty_first_id emptyIDFile (plainCashLetter "") [plainCashLetter "X"]
    rfl rfl⟩

theorem map_eq_triple {α β : Type} (g : α → β) (l : List α) (x y z : β)
    (h : l.map g = [x, y, z]) :
    ∃ a b c, l = [a, b, c] ∧ g a = x ∧ g b = y ∧ g c = z := by
  cases l with
  | nil => simp at h
  | cons a t1 =>
      cases t1 with
      | nil => simp at h
      | cons b t2 =>
          cases t2 with
          | nil => simp at h
          | cons c t3 =>
              cases t3 with
              | cons d t4 => simp at h
              | nil =>
                  simp only [List.map_cons, List.map_nil, List.cons.injEq,
                    and_true] at h
                  exact ⟨a, b, c, rfl, h.1, h.2.1, h.2.2⟩

/-- C4: `Validate` detects only adjacent duplicate CashLetterIDs: IDs
[A, A, B] (A, B distinct and non-empty) fail with a FieldError naming
CashLetterID and message "<id> is not unique", while IDs [A, B, A] pass. -/
theorem C4_adjacent_only_uniqueness (A B : String) (hA : A ≠ "") (_hB : B ≠ "")
    (hAB : A ≠ B) (f g : File)
    (hf : f.CashLetters.map (fun cl => cl.CashLetterHeader.CashLetterID)
      = [A, A, B])
    (hg : g.CashLetters.map (fun cl => cl.CashLetterHeader.CashLetterID)
      = [A, B, A]) :
    f.Validate = some (.field
      { FieldName := "CashLetterID", Value := A, Msg := msgFileCashLetterID A }) ∧
    g.Validate = none := by
  obtain ⟨c1, c2, c3, hfl, h1, h2, h3⟩ := map_eq_triple _ _ _ _ _ hf
  obtain ⟨d1, d2, d3, hgl, k1, k2, k3⟩ := map_eq_triple _ _ _ _ _ hg
  have hA2 : ¬ ("" = A) := fun hcon => hA hcon.symm
  have hBA : ¬ (B = A) := fun hcon => hAB hcon.symm
  constructor
  · simp [File.Validate, File.CashLetterIDUnique, hfl, cashLetterIDUniqueLoop,
      h1, h2, h3, hA2]
  · simp [File.Validate, File.CashLetterIDUnique, hgl, cashLetterIDUniqueLoop,
      k1, k2, k3, hA2, hAB, hBA]

theorem C4_adjacent_only_uniqueness_witness :
    dupIDFile.Validate = some (.field
      { FieldName := "CashLetterID", Value := "A"
        Msg := msgFileCashLetterID "A" }) ∧
    sepIDFile.Validate = none :=
  C4_adjacent_only_uniqueness "A" "B" (by decide) (by decide) (by decide)
    dupIDFile sepIDFile (by decide) (by decide)

theorem append_len_ne (a b : String) (d : String) (h : b.length < a.length) :
    a ++ d ≠ b := by
  intro hcon
  have hlen := congrArg String.length hcon
  rw [String.length_append] at hlen
  omega

/-- C7 counterexample: for the empty byte payload the error `FileFromJSON`
returns is "no JSON data provided", not the claimed "no data provided". -/
theorem C7_counterexample :
    (FileFromJSON JSONInput.empty).2 ≠ some (Err.str "no data provided") := by
  decide

/-- C7 (amended): for the empty byte payload, `FileFromJSON` returns a
null File together with the explicit "no JSON data provided" error,
distinct from the error of each of the three decode passes. -/
theorem C7_no_data_error :
    FileFromJSON JSONInput.empty = (none, some (.str "no JSON data provided")) ∧
    ∀ detail : String,
      (FileFromJSON (.malformedRoot detail)).2
          ≠ some (.str "no JSON data provided") ∧
      (FileFromJSON (.malformedHeader detail)).2
          ≠ some (.str "no JSON data provided") ∧
      (FileFromJSON (.malformedControl detail)).2
          ≠ some (.str "no JSON data provided") := by
  refine ⟨rfl, fun detail => ⟨?_, ?_, ?_⟩⟩ <;>
    · simp only [FileFromJSON, ne_eq, Option.some.injEq, Err.str.injEq]
      exact append_len_ne _ _ detail (by decide)

theorem C7_no_data_error_witness :
    (FileFromJSON (.malformedRoot "x")).2 ≠ some (.str "no JSON data provided") :=
  ((C7_no_data_error.2) "x").1

theorem fileFromJSON_fst_of_create (p : Payload) (e? : Option Err) (f : File)
    (h : (decodedFile p).Create = (e?, f)) :
    ∃ e2, FileFromJSON (.payload p) = (some f, e2) := by
  rw [fileFromJSON_payload, h]
  cases e? with
  | some e => exact ⟨some e, rfl⟩
  | none =>
      cases hv : f.Validate with
      | some e => exact ⟨some e, by simp [hv]⟩
      | none => exact ⟨none, by simp [hv]⟩

/-- C8: a payload carrying only `cashLetters` (no fileHeader and no
fileControl keys) yields a File whose header equals the default
`NewFileHeader` and whose control is the default record or the record
`Create` derives; and a payload supplying an explicit
`fileControl.totalRecordCount` has that value overwritten by what `Create`
computes: on a successful run, changing the supplied count does not change
the output at all. -/
theorem C8_decode_merge :
    (∀ cls : List CashLetter,
      ∃ F, (FileFromJSON (.payload
          { id := none, fileHeader := none, cashLetters := some cls,
            bundles := none, fileControl := none })).1 = some F ∧
        F.Header = NewFileHeader ∧
        ((∃ e, createResult NewFileHeader (cls.map CashLetter.setRecordType)
              = .error e ∧ F.Control = NewFileControl) ∨
          createResult NewFileHeader (cls.map CashLetter.setRecordType)
            = .ok F.Control)) ∧
    (∀ (p : Payload) (c : FileControl) (v : Nat),
      p.fileControl = some c →
      (FileFromJSON (.payload p)).2 = none →
      FileFromJSON (.payload
          { p with fileControl := some { c with TotalRecordCount := v } })
        = FileFromJSON (.payload p)) := by
  constructor
  · intro cls
    have hD : decodedFile
        { id := none, fileHeader := none, cashLetters := some cls,
          bundles := none, fileControl := none } =
        { ID := "", Header := NewFileHeader,
          CashLetters := cls.map CashLetter.setRecordType,
          Bundles := [], Control := NewFileControl } := rfl
    cases hr : createResult NewFileHeader (cls.map CashLetter.setRecordType) with
    | error e =>
        have hcreate : (decodedFile
            { id := none, fileHeader := none, cashLetters := some cls,
              bundles := none, fileControl := none }).Create =
            (some e, { ID := "", Header := NewFileHeader,
                       CashLetters := cls.map CashLetter.setRecordType,
                       Bundles := [], Control := NewFileControl }) := by
          rw [hD]; simp [File.Create, hr]
        obtain ⟨e2, hF⟩ := fileFromJSON_fst_of_create _ _ _ hcreate
        exact ⟨_, by rw [hF], rfl, Or.inl ⟨e, rfl, rfl⟩⟩
    | ok fc =>
        have hcreate : (decodedFile
            { id := none, fileHeader := none, cashLetters := some cls,
              bundles := none, fileControl := none }).Create =
            (none, { ID := "", Header := NewFileHeader,
                     CashLetters := cls.map CashLetter.setRecordType,
                     Bundles := [], Control := fc }) := by
          rw [hD]; simp [File.Create, hr]
        obtain ⟨e2, hF⟩ := fileFromJSON_fst_of_create _ _ _ hcreate
        exact ⟨_, by rw [hF], rfl, Or.inr rfl⟩
  · intro p c v hpc hsucc
    have hdiff : decodedFile
        { p with fileControl := some { c with TotalRecordCount := v } } =
        { decodedFile p with
          Control := ({ c with TotalRecordCount := v }).setRecordType } := by
      simp [decodedFile, File.setRecordTypes, hpc]
    rw [fileFromJSON_payload] at hsucc
    rw [fileFromJSON_payload, fileFromJSON_payload, hdiff]
    cases hr : createResult (decodedFile p).Header (decodedFile p).CashLetters with
    | error e =>
        have hcr : (decodedFile p).Create = (some e, decodedFile p) := by
          simp [File.Create, hr]
        rw [hcr] at hsucc
        simp at hsucc
    | ok fc =>
        have h1 : (decodedFile p).Create =
            (none, { decodedFile p with Control := fc }) := by
          simp [File.Create, hr]
        have h2 : ({ decodedFile p with
            Control := ({ c with TotalRecordCount := v }).setRecordType } : File).Create =
            (none, { decodedFile p with Control := fc }) := by
          simp [File.Create, hr]
        rw [h1] at hsucc
        rw [h1, h2]

theorem C8_decode_merge_witness :
    samplePayload.fileControl = some NewFileControl ∧
    (FileFromJSON (.payload samplePayload)).2 = none ∧
    FileFromJSON (.payload { samplePayload with
        fileControl := some { NewFileControl with TotalRecordCount := 999 } })
      = FileFromJSON (.payload samplePayload) :=
  ⟨rfl, by decide,
    (C8_decode_merge.2) samplePayload NewFileControl 999 rfl (by decide)⟩
